import Mathlib

/-!
Verification of the WSI-conversion metadata core: a shallow embedding of the
UID registry (`uid_manager.py`, `uid_registry.py`), the metadata resolvers
(`metadata_handler.py`, `ccdi_loader.py`, `csv_loaders.py`), the code mapper
(`code_mapper.py`) and the specimen description builder
(`specimen_builder.py`, `metadata_schema.py`), together with proofs and
refutations of the specification's claims about them.
-/

namespace WsiConv

/-! ### String helpers modelling Python semantics

`pyStrip` models Python `str.strip()` (drop leading and trailing whitespace);
`pyIn` models Python's substring containment `needle in hay`;
`pyStartsWith` models `str.startswith`. -/

def isPySpace (c : Char) : Bool :=
  c == ' ' || c == '\t' || c == '\n' || c == '\r' || c == '\x0b' || c == '\x0c'

def stripChars (l : List Char) : List Char :=
  ((l.dropWhile isPySpace).reverse.dropWhile isPySpace).reverse

def pyStrip (s : String) : String :=
  ⟨stripChars s.data⟩

def containsSub (needle : List Char) : List Char → Bool
  | [] => needle.isEmpty
  | c :: t => needle.isPrefixOf (c :: t) || containsSub needle t

def pyIn (needle hay : String) : Bool :=
  containsSub needle.data hay.data

def pyStartsWith (s pre : String) : Bool :=
  pre.data.isPrefixOf s.data

theorem dropWhile_idem (p : α → Bool) (l : List α) :
    (l.dropWhile p).dropWhile p = l.dropWhile p := by
  induction l with
  | nil => rfl
  | cons a t ih =>
    by_cases h : p a
    · simp [List.dropWhile_cons, h, ih]
    · simp [List.dropWhile_cons, h]

theorem head_dropWhile_false (p : α → Bool) (l : List α) :
    ∀ a, (l.dropWhile p).head? = some a → p a = false := by
  induction l with
  | nil => intro a h; simp at h
  | cons b t ih =>
    intro a h
    by_cases hb : p b
    · exact ih a (by simpa [List.dropWhile_cons, hb] using h)
    · simp [List.dropWhile_cons, hb] at h
      subst h
      simpa using hb

theorem getLast?_dropWhile (p : α → Bool) (l : List α)
    (h : l.dropWhile p ≠ []) : (l.dropWhile p).getLast? = l.getLast? := by
  induction l with
  | nil => simp at h
  | cons a t ih =>
    by_cases hpa : p a
    · have hd : (a :: t).dropWhile p = t.dropWhile p := by
        simp [List.dropWhile_cons, hpa]
      rw [hd] at h ⊢
      have ht : t ≠ [] := by
        intro he; rw [he] at h; simp at h
      rw [ih h]
      cases t with
      | nil => exact absurd rfl ht
      | cons b t2 => simp [List.getLast?_cons_cons]
    · simp [List.dropWhile_cons, hpa]

theorem dropWhile_eq_self_of_all (p : α → Bool) (l : List α)
    (h : ∀ a ∈ l, p a = false) : l.dropWhile p = l := by
  cases l with
  | nil => rfl
  | cons a t =>
    have := h a (by simp)
    simp [List.dropWhile_cons, this]

theorem stripChars_idem (l : List Char) :
    stripChars (stripChars l) = stripChars l := by
  unfold stripChars
  set r := (l.dropWhile isPySpace).reverse with hr
  set x := r.dropWhile isPySpace with hx
  -- the inner strip result is `x.reverse`
  by_cases hxe : x = []
  · simp [hxe]
  · have h1 : x.reverse.dropWhile isPySpace = x.reverse := by
      cases hh : x.reverse.head? with
      | none =>
        have : x.reverse = [] := by
          cases hxr : x.reverse with
          | nil => rfl
          | cons c t => rw [hxr] at hh; simp at hh
        simp [this]
      | some c =>
        -- the head of `x.reverse` is the last element of `x`, which is the
        -- last element of `r`, which is the head of `l.dropWhile isPySpace`
        have hlast : x.getLast? = some c := by
          rw [← List.head?_reverse]; exact hh
        have hrlast : r.getLast? = some c := by
          rw [← getLast?_dropWhile isPySpace r (hx ▸ hxe)]
          rw [← hx]; exact hlast
        have hhead : (l.dropWhile isPySpace).head? = some c := by
          rw [← List.getLast?_reverse]; rw [← hr]; exact hrlast
        have hc : isPySpace c = false :=
          head_dropWhile_false isPySpace l c hhead
        cases hxr : x.reverse with
        | nil => simp
        | cons d t =>
          have hd : d = c := by rw [hxr] at hh; simp at hh; exact hh
          subst hd
          simp [List.dropWhile_cons, hc]
    rw [h1, List.reverse_reverse, hx, dropWhile_idem]

theorem pyStrip_idem (s : String) : pyStrip (pyStrip s) = pyStrip s := by
  unfold pyStrip
  exact congrArg String.mk (stripChars_idem s.data)

theorem stripChars_eq_self (l : List Char)
    (h : ∀ c ∈ l, isPySpace c = false) : stripChars l = l := by
  unfold stripChars
  rw [dropWhile_eq_self_of_all isPySpace l h,
      dropWhile_eq_self_of_all isPySpace l.reverse (by
        intro c hc; exact h c (List.mem_reverse.mp hc)),
      List.reverse_reverse]

theorem pyStrip_eq_self (s : String)
    (h : ∀ c ∈ s.data, isPySpace c = false) : pyStrip s = s := by
  unfold pyStrip
  rw [stripChars_eq_self s.data h]

/-! ### Decimal representations contain no whitespace

Needed because the registry writes `"2.25.<decimal-uint128>"` values to its
CSV backing store, and reloading strips each stored cell. -/

theorem mem_toDigitsCore (f : Nat) : ∀ (n : Nat) (l : List Char) (c : Char),
    c ∈ Nat.toDigitsCore 10 f n l → c ∈ l ∨ ∃ m, m < 10 ∧ c = Nat.digitChar m := by
  induction f with
  | zero =>
    intro n l c h
    exact Or.inl (by simpa [Nat.toDigitsCore] using h)
  | succ f ih =>
    intro n l c h
    simp only [Nat.toDigitsCore] at h
    by_cases hz : n / 10 = 0
    · rw [if_pos hz] at h
      rcases List.mem_cons.mp h with hc | hc
      · exact Or.inr ⟨n % 10, Nat.mod_lt n (by norm_num), hc⟩
      · exact Or.inl hc
    · rw [if_neg hz] at h
      rcases ih (n / 10) (Nat.digitChar (n % 10) :: l) c h with hc | hc
      · rcases List.mem_cons.mp hc with hc2 | hc2
        · exact Or.inr ⟨n % 10, Nat.mod_lt n (by norm_num), hc2⟩
        · exact Or.inl hc2
      · exact Or.inr hc

theorem digitChar_no_space : ∀ m, m < 10 → isPySpace (Nat.digitChar m) = false := by
  decide

theorem repr_no_space (n : Nat) :
    ∀ c ∈ (Nat.repr n).data, isPySpace c = false := by
  intro c hc
  have h : c ∈ Nat.toDigitsCore 10 (n + 1) n [] := hc
  rcases mem_toDigitsCore (n + 1) n [] c h with hc2 | ⟨m, hm, rfl⟩
  · simp at hc2
  · exact digitChar_no_space m hm

theorem pyStrip_uid (n : Nat) :
    pyStrip ("2.25." ++ Nat.repr n) = "2.25." ++ Nat.repr n := by
  apply pyStrip_eq_self
  intro c hc
  rw [String.data_append] at hc
  rcases List.mem_append.mp hc with hc2 | hc2
  · have hall : ∀ c ∈ ("2.25." : String).data, isPySpace c = false := by decide
    exact hall c hc2
  · exact repr_no_space n c hc2

/-! ### Persistent UID registry (`uid_manager.py`, CSV map files)

The backing store is modelled as the list of appended CSV rows; the in-memory
dict as a function `String → Option String`; `uuid.uuid4().int` draws as an
entropy oracle `Nat → Nat` plus a draw counter. -/

structure UIDStore where
  cache : String → Option String
  file : List (List String)
  entropy : Nat → Nat
  used : Nat

/-- `UIDMappingManager.generate_new_uid`: `"2.25." + str(uuid4().int)`. -/
def generate_new_uid (st : UIDStore) : String :=
  "2.25." ++ Nat.repr (st.entropy st.used)

/-- `UIDMappingManager._load_csv_map`: rows with at least two cells and a
non-empty stripped key populate the dict (later rows overwrite earlier). -/
def load_csv_map (rows : List (List String)) : String → Option String :=
  rows.foldl
    (fun m row =>
      match row with
      | k :: v :: _ =>
        if pyStrip k ≠ "" then
          fun x => if x = pyStrip k then some (pyStrip v) else m x
        else m
      | _ => m)
    (fun _ => none)

/-- `UIDMappingManager.get_or_create_specimen_uid`: strip the key, return the
cached UID if present, otherwise mint a fresh UID, cache it and append it to
the CSV backing file. -/
def get_or_create_specimen_uid (st : UIDStore) (specimen_id : String) :
    String × UIDStore :=
  let sid := pyStrip specimen_id
  match st.cache sid with
  | some uid => (uid, st)
  | none =>
    let uid := generate_new_uid st
    (uid,
      { st with
        cache := fun x => if x = sid then some uid else st.cache x
        file := st.file ++ [[sid, uid]]
        used := st.used + 1 })

/-- `UIDMappingManager.get_specimen_uid`: pure read, never creates. -/
def get_specimen_uid (st : UIDStore) (specimen_id : String) : Option String :=
  st.cache (pyStrip specimen_id)

/-- `UIDMappingManager.__init__` + `_load_mappings`: a fresh manager opened
against an existing backing file rebuilds its cache from the file. -/
def openStore (rows : List (List String)) (entropy : Nat → Nat) : UIDStore :=
  { cache := load_csv_map rows, file := rows, entropy := entropy, used := 0 }

/-- States whose backing file reproduces the cache on all stripped non-empty
keys; holds for a freshly opened store and is preserved by every operation. -/
def StoreInv (st : UIDStore) : Prop :=
  ∀ k : String, pyStrip k = k → k ≠ "" → load_csv_map st.file k = st.cache k

theorem storeInv_openStore (rows : List (List String)) (entropy : Nat → Nat) :
    StoreInv (openStore rows entropy) := by
  intro k _ _
  rfl

theorem load_csv_map_append (rows : List (List String)) (a b : String) :
    load_csv_map (rows ++ [[a, b]]) = fun x =>
      if pyStrip a ≠ "" then
        if x = pyStrip a then some (pyStrip b) else load_csv_map rows x
      else load_csv_map rows x := by
  unfold load_csv_map
  rw [List.foldl_append]
  by_cases h : pyStrip a ≠ ""
  · simp [h]
  · simp [h]

end WsiConv

namespace WsiConv

/-! ### SQLite-backed UID registry (`uid_registry.py`)

The database is modelled as a map from `(dataset, key)` to the stored UID;
there is no separate in-memory cache (every call reads through to the DB),
and a fresh `UIDRegistry` against the same file sees the same rows
(`_init_db` only creates missing tables). `pydicom.uid.generate_uid()` draws
`"2.25.<uint>"` values from an entropy oracle. -/

structure SqliteUIDStore where
  db : String × String → Option String
  entropy : Nat → Nat
  used : Nat

/-- `UIDRegistry.get_or_create_study_uid`: select by `(dataset, patient_id)`;
return the stored UID when present, otherwise generate, insert and commit. -/
def get_or_create_study_uid (reg : SqliteUIDStore) (patient_id : String)
    (dataset : String) : String × SqliteUIDStore :=
  match reg.db (dataset, patient_id) with
  | some uid => (uid, reg)
  | none =>
    let uid := "2.25." ++ Nat.repr (reg.entropy reg.used)
    (uid,
      { reg with
        db := fun k =>
          if k = (dataset, patient_id) then some uid else reg.db k
        used := reg.used + 1 })

/-- `UIDRegistry.__init__` + `_init_db` on an existing database: the new
instance reads the same rows. -/
def openRegistry (db : String × String → Option String) (entropy : Nat → Nat) :
    SqliteUIDStore :=
  { db := db, entropy := entropy, used := 0 }

/-- C1. Both backends. CSV (`uid_manager.py`): for every valid (stripped,
non-empty) key, two sequential calls to `get_or_create_specimen_uid` return
the identical UID, and a fresh manager opened against the backing CSV file
written by the first call (with arbitrary fresh entropy) also returns that
identical UID. SQLite (`uid_registry.py`): two sequential calls to
`get_or_create_study_uid` return the identical UID, and a fresh registry
opened against the database written by the first call also returns it: the
store-then-reload round trip reconstructs the creating process's mappings. -/
theorem c1_getOrCreate_roundtrip (st : UIDStore) (key : String) (ent2 : Nat → Nat)
    (reg : SqliteUIDStore) (patient_id dataset : String) (ent3 : Nat → Nat)
    (hInv : StoreInv st) (hkey : pyStrip key ≠ "") :
    (get_or_create_specimen_uid (get_or_create_specimen_uid st key).2 key).1
      = (get_or_create_specimen_uid st key).1
    ∧ (get_or_create_specimen_uid
        (openStore (get_or_create_specimen_uid st key).2.file ent2) key).1
      = (get_or_create_specimen_uid st key).1
    ∧ (get_or_create_study_uid
        (get_or_create_study_uid reg patient_id dataset).2 patient_id dataset).1
      = (get_or_create_study_uid reg patient_id dataset).1
    ∧ (get_or_create_study_uid
        (openRegistry (get_or_create_study_uid reg patient_id dataset).2.db ent3)
        patient_id dataset).1
      = (get_or_create_study_uid reg patient_id dataset).1 := by
  have hsid : pyStrip (pyStrip key) = pyStrip key := pyStrip_idem key
  refine ⟨?_, ?_, ?_, ?_⟩
  · cases hc : st.cache (pyStrip key) with
    | some uid => simp [get_or_create_specimen_uid, hc]
    | none => simp [get_or_create_specimen_uid, hc]
  · cases hc : st.cache (pyStrip key) with
    | some uid =>
      have hload : load_csv_map st.file (pyStrip key) = some uid := by
        rw [hInv (pyStrip key) hsid hkey, hc]
      simp [get_or_create_specimen_uid, hc, openStore, hload]
    | none =>
      have huid : pyStrip (generate_new_uid st) = generate_new_uid st :=
        pyStrip_uid _
      have hload : load_csv_map (st.file ++ [[pyStrip key, generate_new_uid st]])
          (pyStrip key) = some (generate_new_uid st) := by
        rw [load_csv_map_append]
        simp [hsid, hkey, huid]
      simp [get_or_create_specimen_uid, hc, openStore, hload]
  · cases hdb : reg.db (dataset, patient_id) with
    | some uid => simp [get_or_create_study_uid, hdb]
    | none => simp [get_or_create_study_uid, hdb]
  · cases hdb : reg.db (dataset, patient_id) with
    | some uid => simp [get_or_create_study_uid, hdb, openRegistry]
    | none => simp [get_or_create_study_uid, hdb, openRegistry]

/-- Witness for C1 at concrete fresh stores for both backends. -/
theorem c1_getOrCreate_roundtrip_witness :
    (get_or_create_specimen_uid
        (get_or_create_specimen_uid (openStore [] (fun _ => 7)) "S1").2 "S1").1
      = (get_or_create_specimen_uid (openStore [] (fun _ => 7)) "S1").1
    ∧ (get_or_create_specimen_uid
        (openStore
          (get_or_create_specimen_uid (openStore [] (fun _ => 7)) "S1").2.file
          (fun _ => 9)) "S1").1
      = (get_or_create_specimen_uid (openStore [] (fun _ => 7)) "S1").1
    ∧ (get_or_create_study_uid
        (get_or_create_study_uid (openRegistry (fun _ => none) (fun _ => 3))
          "PBCPZR" "CCDI").2 "PBCPZR" "CCDI").1
      = (get_or_create_study_uid (openRegistry (fun _ => none) (fun _ => 3))
          "PBCPZR" "CCDI").1
    ∧ (get_or_create_study_uid
        (openRegistry
          (get_or_create_study_uid (openRegistry (fun _ => none) (fun _ => 3))
            "PBCPZR" "CCDI").2.db (fun _ => 4)) "PBCPZR" "CCDI").1
      = (get_or_create_study_uid (openRegistry (fun _ => none) (fun _ => 3))
          "PBCPZR" "CCDI").1 :=
  c1_getOrCreate_roundtrip (openStore [] (fun _ => 7)) "S1" (fun _ => 9)
    (openRegistry (fun _ => none) (fun _ => 3)) "PBCPZR" "CCDI" (fun _ => 4)
    (storeInv_openStore [] (fun _ => 7)) (by decide)

/-- C10. The CSV-backed registry strips every key before lookup and storage,
in both the get-or-create and the pure-read operation: a key and its stripped
form yield the same result, and every row the operation appends to the
backing store carries the stripped key. -/
theorem c10_key_stripping (st : UIDStore) (key : String) :
    (get_or_create_specimen_uid st key).1
      = (get_or_create_specimen_uid st (pyStrip key)).1
    ∧ get_specimen_uid st key = get_specimen_uid st (pyStrip key)
    ∧ ∀ row ∈ (get_or_create_specimen_uid st key).2.file,
        row ∈ st.file ∨ ∃ v, row = [pyStrip key, v] := by
  have hsid : pyStrip (pyStrip key) = pyStrip key := pyStrip_idem key
  refine ⟨?_, ?_, ?_⟩
  · simp only [get_or_create_specimen_uid, hsid]
  · simp only [get_specimen_uid, hsid]
  · intro row hr
    simp only [get_or_create_specimen_uid] at hr
    cases hc : st.cache (pyStrip key) with
    | some uid =>
      rw [hc] at hr
      exact Or.inl hr
    | none =>
      rw [hc] at hr
      rcases List.mem_append.mp hr with h2 | h2
      · exact Or.inl h2
      · refine Or.inr ⟨generate_new_uid st, ?_⟩
        simpa using h2

/-! ### Study timestamp namespace

`uid_manager.py::get_or_set_study_datetime` (CSV backend, with the optional
map file and Python falsy checks) and
`uid_registry.py::get_or_create_study_datetime` (SQLite backend, table
modelled as a map). `datetime.now()` is an oracle argument `now`. -/

structure DtState where
  hasMapFile : Bool
  cache : String → Option String
  file : List (List String)

def get_or_set_study_datetime (st : DtState) (study_id : String)
    (datetime_str : Option String) (now : String) : Option String × DtState :=
  if st.hasMapFile = false then (datetime_str, st)
  else
    let sid := pyStrip study_id
    match st.cache sid with
    | some v => (some v, st)
    | none =>
      let d := match datetime_str with
               | none => now
               | some s => if s = "" then now else s
      (some d,
        { st with
          cache := fun x => if x = sid then some d else st.cache x
          file := st.file ++ [[sid, d]] })

structure SqliteDtTable where
  table : String → Option String

def get_or_create_study_datetime (tbl : SqliteDtTable) (study_id : String)
    (study_datetime : Option String) (now : String) : String × SqliteDtTable :=
  match tbl.table study_id with
  | some v => (v, tbl)
  | none =>
    let v := study_datetime.getD now
    (v, ⟨fun x => if x = study_id then some v else tbl.table x⟩)

/-- C9. In both backends, the first call for a study key stores the
caller-supplied candidate value (not a generated one), and every later call
for the same key returns that stored value unchanged, ignoring any new
candidate. -/
theorem c9_study_timestamp (st : DtState) (tbl : SqliteDtTable) (key c : String)
    (cand2 : Option String) (now now2 : String)
    (hfile : st.hasMapFile = true) (hmiss : st.cache (pyStrip key) = none)
    (hc : c ≠ "") (hmiss2 : tbl.table key = none) :
    (get_or_set_study_datetime st key (some c) now).1 = some c
    ∧ (get_or_set_study_datetime
        (get_or_set_study_datetime st key (some c) now).2 key cand2 now2).1
      = some c
    ∧ (get_or_create_study_datetime tbl key (some c) now).1 = c
    ∧ (get_or_create_study_datetime
        (get_or_create_study_datetime tbl key (some c) now).2 key cand2 now2).1
      = c := by
  refine ⟨?_, ?_, ?_, ?_⟩
  · simp [get_or_set_study_datetime, hfile, hmiss, hc]
  · simp [get_or_set_study_datetime, hfile, hmiss, hc]
  · simp [get_or_create_study_datetime, hmiss2]
  · simp [get_or_create_study_datetime, hmiss2]

/-- Witness for C9 at empty stores and the key `"P1"`. -/
theorem c9_study_timestamp_witness :
    (get_or_set_study_datetime ⟨true, fun _ => none, []⟩ "P1"
        (some "20240115103000") "now1").1 = some "20240115103000"
    ∧ (get_or_set_study_datetime
        (get_or_set_study_datetime ⟨true, fun _ => none, []⟩ "P1"
          (some "20240115103000") "now1").2 "P1" (some "20990101000000")
        "now2").1 = some "20240115103000"
    ∧ (get_or_create_study_datetime ⟨fun _ => none⟩ "P1"
        (some "20240115103000") "now1").1 = "20240115103000"
    ∧ (get_or_create_study_datetime
        (get_or_create_study_datetime ⟨fun _ => none⟩ "P1"
          (some "20240115103000") "now1").2 "P1" (some "20990101000000")
        "now2").1 = "20240115103000" :=
  c9_study_timestamp ⟨true, fun _ => none, []⟩ ⟨fun _ => none⟩ "P1"
    "20240115103000" (some "20990101000000") "now1" "now2" rfl rfl
    (by decide) rfl

/-! ### Coded concept catalog (`code_mapper.py`)

`CodedConcept` and the static anatomy dictionary `_anatomy_map`, in source
order (Python dicts preserve insertion order, which the partial-match scan
relies on). -/

structure CodedConcept where
  value : String
  scheme : String
  meaning : String
deriving DecidableEq

def SCT : String := "SCT"

def ICDO3 : String := "ICDO3"

def NCIT : String := "NCIt"

/-- Catalog entry helper: every anatomy entry uses the SCT scheme. -/
def ce (k v m : String) : String × CodedConcept := (k, ⟨v, SCT, m⟩)

def anatomy_map : List (String × CodedConcept) := [
  ce "C71.0 : Cerebrum" "83678007" "Cerebrum",
  ce "C71.1 : Frontal lobe" "83251001" "Frontal lobe",
  ce "C71.2 : Temporal lobe" "78277001" "Temporal lobe",
  ce "C71.3 : Parietal lobe" "16630005" "Parietal lobe",
  ce "C71.4 : Occipital lobe" "31065004" "Occipital lobe",
  ce "C71.5 : Ventricle, NOS" "35764002" "Cerebral ventricle",
  ce "C71.6 : Cerebellum, NOS" "113305005" "Cerebellar structure",
  ce "C71.7 : Brain stem" "15926001" "Brain stem",
  ce "C71.8 : Overlapping lesion of brain" "12738006" "Brain",
  ce "C71.9 : Brain, NOS" "12738006" "Brain",
  ce "C72.0 : Spinal cord" "2748008" "Spinal cord",
  ce "C72.1 : Cauda equina" "7173007" "Cauda equina",
  ce "C72.9 : Central nervous system" "21483005" "Central nervous system",
  ce "C74.0 : Adrenal cortex" "68594002" "Adrenal cortex",
  ce "C74.1 : Adrenal medulla" "23451007" "Adrenal medulla",
  ce "C74.9 : Adrenal gland, NOS" "23451007" "Adrenal gland",
  ce "C75.1 : Pituitary gland" "56329008" "Pituitary gland",
  ce "C75.2 : Craniopharyngeal duct" "55926006" "Craniopharyngeal duct",
  ce "C75.3 : Pineal gland" "45793000" "Pineal gland",
  ce "C42.0 : Blood" "87612001" "Blood",
  ce "C42.1 : Bone marrow" "14016003" "Bone marrow",
  ce "C34.0 : Main bronchus" "102297006" "Main bronchus",
  ce "C34.1 : Upper lobe, lung" "45653009" "Upper lobe of lung",
  ce "C34.2 : Middle lobe, lung" "72481006" "Middle lobe of right lung",
  ce "C34.3 : Lower lobe, lung" "90572001" "Lower lobe of lung",
  ce "C34.9 : Lung, NOS" "39607008" "Lung",
  ce "C37.9 : Thymus" "9875009" "Thymus",
  ce "C38.0 : Heart" "80891009" "Heart",
  ce "C22.0 : Liver" "10200004" "Liver",
  ce "C22.1 : Intrahepatic bile duct" "58716001" "Intrahepatic bile duct",
  ce "C23.9 : Gallbladder" "28231008" "Gallbladder",
  ce "C25.0 : Head of pancreas" "64163001" "Head of pancreas",
  ce "C25.9 : Pancreas, NOS" "15776009" "Pancreas",
  ce "C48.0 : Retroperitoneum" "82849001" "Retroperitoneum",
  ce "C48.1 : Specified parts of peritoneum" "15425007" "Peritoneum",
  ce "C48.2 : Peritoneum, NOS" "15425007" "Peritoneum",
  ce "C64.9 : Kidney, NOS" "64033007" "Kidney",
  ce "C65.9 : Renal pelvis" "25990002" "Renal pelvis",
  ce "C66.9 : Ureter" "87953007" "Ureter",
  ce "C67.9 : Bladder, NOS" "89837001" "Urinary bladder",
  ce "C68.0 : Urethra" "13648007" "Urethra",
  ce "C61.9 : Prostate gland" "41216001" "Prostate",
  ce "C62.9 : Testis, NOS" "40689003" "Testis",
  ce "C53.9 : Cervix uteri" "71252005" "Cervix",
  ce "C54.1 : Endometrium" "2739003" "Endometrium",
  ce "C54.9 : Corpus uteri" "35039007" "Uterus",
  ce "C55.9 : Uterus, NOS" "35039007" "Uterus",
  ce "C56.9 : Ovary" "15497006" "Ovary",
  ce "C57.0 : Fallopian tube" "31435000" "Fallopian tube",
  ce "C50.9 : Breast, NOS" "76752008" "Breast",
  ce "C44.9 : Skin, NOS" "39937001" "Skin",
  ce "C40.0 : Long bones of upper limb" "410030009" "Bone structure of upper extremity",
  ce "C40.2 : Long bones of lower limb" "410029004" "Bone structure of lower extremity",
  ce "C41.0 : Bones of skull and face and associated joints" "272679001" "Cranial and/or facial bone",
  ce "C41.2 : Vertebral column" "421060004" "Vertebral column",
  ce "C41.4 : Pelvic bones" "12921003" "Pelvic bone",
  ce "C41.9 : Bone, NOS" "272673000" "Bone",
  ce "C47.9 : Peripheral nerves and autonomic nervous system" "84782009" "Peripheral nerve",
  ce "C49.0 : Connective tissue of head, face and neck" "71836000" "Soft tissue",
  ce "C49.9 : Connective, subcutaneous and other soft tissues, NOS" "71836000" "Soft tissue",
  ce "C69.0 : Conjunctiva" "29445007" "Conjunctiva",
  ce "C69.2 : Retina" "5665001" "Retina",
  ce "C69.4 : Ciliary body" "29534007" "Ciliary body",
  ce "C69.6 : Orbit, NOS" "363654007" "Orbit",
  ce "C69.9 : Eye, NOS" "81745001" "Eye",
  ce "C77.0 : Lymph nodes of head, face and neck" "59441001" "Lymph node",
  ce "C77.9 : Lymph node, NOS" "59441001" "Lymph node",
  ce "C15.9 : Esophagus, NOS" "32849002" "Esophagus",
  ce "C16.9 : Stomach, NOS" "69695003" "Stomach",
  ce "C17.0 : Duodenum" "38848004" "Duodenum",
  ce "C17.9 : Small intestine, NOS" "30315005" "Small intestine",
  ce "C18.9 : Colon, NOS" "71854001" "Colon",
  ce "C19.9 : Rectosigmoid junction" "49832006" "Rectosigmoid junction",
  ce "C20.9 : Rectum, NOS" "34402009" "Rectum",
  ce "C00.9 : Lip, NOS" "81083006" "Lip",
  ce "C01.9 : Base of tongue" "47975008" "Base of tongue",
  ce "C02.9 : Tongue, NOS" "21974007" "Tongue",
  ce "C07.9 : Parotid gland" "45289007" "Parotid gland",
  ce "C08.9 : Major salivary gland, NOS" "385296007" "Salivary gland",
  ce "C09.9 : Tonsil, NOS" "75573002" "Tonsil",
  ce "C10.9 : Oropharynx, NOS" "31389004" "Oropharynx",
  ce "C11.9 : Nasopharynx, NOS" "71836000" "Nasopharynx",
  ce "C13.9 : Hypopharynx, NOS" "81502006" "Hypopharynx",
  ce "C30.0 : Nasal cavity" "279549004" "Nasal cavity",
  ce "C31.0 : Maxillary sinus" "15924003" "Maxillary sinus",
  ce "C32.9 : Larynx, NOS" "4596009" "Larynx",
  ce "C73.9 : Thyroid gland" "69748006" "Thyroid gland",
  ce "C76.0 : Head, face or neck, NOS" "774007" "Head and/or neck structure",
  ce "C76.7 : Other ill-defined sites" "39801007" "Body structure",
  ce "C80.9 : Unknown primary site" "39801007" "Body structure"]

/-- Python `key.split(":")[0]`: the segment before the first colon (the whole
string when no colon occurs). -/
def firstColonSegment (s : String) : String :=
  ⟨s.data.takeWhile (fun c => c ≠ ':')⟩

/-- `DicomCodeMapper.map_anatomy_to_snomed`: sentinel guard, exact dict
lookup, then one pass over the catalog in insertion order checking, per key,
first whether the key's coded part is a prefix of the input and then whether
the whole key occurs inside the input. -/
def map_anatomy_to_snomed (anatomic_site : String) : Option CodedConcept :=
  if anatomic_site = "" ∨ anatomic_site = "Not Reported" ∨
      anatomic_site = "Invalid value" then none
  else
    match anatomy_map.lookup anatomic_site with
    | some a => some a
    | none =>
      (anatomy_map.find? (fun kv =>
        pyStartsWith anatomic_site (pyStrip (firstColonSegment kv.1)) ||
        pyIn kv.1 anatomic_site)).map (fun kv => kv.2)

/-- Split a character list at the first occurrence of `sep` (Python
`s.split(sep, 1)` when it finds a separator). -/
def splitOnFirst (sep : List Char) : List Char → Option (List Char × List Char)
  | [] => none
  | c :: t =>
    if sep.isPrefixOf (c :: t) then some ([], (c :: t).drop sep.length)
    else
      match splitOnFirst sep t with
      | some (a, b) => some (c :: a, b)
      | none => none

/-- The substring of a catalog key before the first `" : "` separator (the
whole key when the separator does not occur) — the claim's "coded prefix". -/
def codedPart (k : String) : String :=
  match splitOnFirst " : ".data k.data with
  | some (a, _) => ⟨a⟩
  | none => k

/-- The anatomy lookup as the specification words it: tier 2 (coded part of a
key is a prefix of the input) is exhausted over the whole catalog before
tier 3 (whole key contained in the input) is consulted. -/
def map_anatomy_tiered (anatomic_site : String) : Option CodedConcept :=
  if anatomic_site = "" ∨ anatomic_site = "Not Reported" ∨
      anatomic_site = "Invalid value" then none
  else
    match anatomy_map.lookup anatomic_site with
    | some a => some a
    | none =>
      match anatomy_map.find? (fun kv =>
          pyStartsWith anatomic_site (codedPart kv.1)) with
      | some kv => some kv.2
      | none =>
        (anatomy_map.find? (fun kv => pyIn kv.1 anatomic_site)).map
          (fun kv => kv.2)

/-- C5 counterexample: on `"C72.0 x C71.0 : Cerebrum"` the code answers with
the Cerebrum entry (an earlier key matching only by containment), while the
claimed whole-catalog tier ordering would answer with the Spinal cord entry
(a later key matching by coded prefix): the tiers are not tried catalog-wide
in order. -/
theorem c5_anatomy_tiers_counterexample :
    map_anatomy_to_snomed "C72.0 x C71.0 : Cerebrum"
      = some ⟨"83678007", SCT, "Cerebrum"⟩
    ∧ map_anatomy_tiered "C72.0 x C71.0 : Cerebrum"
      = some ⟨"2748008", SCT, "Spinal cord"⟩
    ∧ map_anatomy_to_snomed "C72.0 x C71.0 : Cerebrum"
      ≠ map_anatomy_tiered "C72.0 x C71.0 : Cerebrum" := by
  refine ⟨by decide, by decide, by decide⟩

/-- C5 amended: after the sentinel guard, an exact catalog hit wins (tier 1);
otherwise the catalog is scanned once in insertion order and the first entry
matching either by coded prefix or by containment wins (tiers 2 and 3 are
interleaved per entry, not tried catalog-wide in order); the concrete facts
hold: `"C71.7 : Brain stem"` maps to code 15926001, and an input matching no
entry returns `none` without failing. -/
theorem c5_anatomy_lookup_amended (s : String) (c : CodedConcept)
    (hs1 : s ≠ "") (hs2 : s ≠ "Not Reported") (hs3 : s ≠ "Invalid value") :
    (anatomy_map.lookup s = some c → map_anatomy_to_snomed s = some c)
    ∧ (anatomy_map.lookup s = none →
        map_anatomy_to_snomed s
          = (anatomy_map.find? (fun kv =>
              pyStartsWith s (pyStrip (firstColonSegment kv.1)) ||
              pyIn kv.1 s)).map (fun kv => kv.2))
    ∧ map_anatomy_to_snomed "C71.7 : Brain stem"
        = some ⟨"15926001", SCT, "Brain stem"⟩ := by
  have hguard : ¬(s = "" ∨ s = "Not Reported" ∨ s = "Invalid value") := by
    tauto
  refine ⟨?_, ?_, by decide⟩
  · intro h
    unfold map_anatomy_to_snomed
    rw [if_neg hguard, h]
  · intro h
    unfold map_anatomy_to_snomed
    rw [if_neg hguard, h]

/-- Witness for C5's amended theorem: an exact hit and a miss. -/
theorem c5_anatomy_lookup_amended_witness :
    map_anatomy_to_snomed "C71.0 : Cerebrum" = some ⟨"83678007", SCT, "Cerebrum"⟩
    ∧ map_anatomy_to_snomed "zebrafish gill" = none := by
  constructor
  · exact (c5_anatomy_lookup_amended "C71.0 : Cerebrum"
      ⟨"83678007", SCT, "Cerebrum"⟩ (by decide) (by decide) (by decide)).1
      (by decide)
  · have h := (c5_anatomy_lookup_amended "zebrafish gill"
      ⟨"0", SCT, "none"⟩ (by decide) (by decide) (by decide)).2.1 (by decide)
    rw [h]
    decide

/-! ### Specimen short description (`code_mapper.py` abbreviation tables,
`specimen_builder.py::build_short_description`) -/

def fixation_abbreviations : List (String × String) := [
  ("FFPE", "FF"),
  ("Formalin fixed paraffin embedded (FFPE)", "FF"),
  ("Formalin-Fixed Paraffin-Embedded", "FF"),
  ("Formalin", "FF"),
  ("10% Neutral Buffered Formalin", "FF"),
  ("PAXgene", "PG"),
  ("OCT", "OCT"),
  ("Optimal Cutting Temperature", "OCT"),
  ("Frozen", "FR")]

def embedding_abbreviations : List (String × String) := [
  ("FFPE", "PE"),
  ("Formalin fixed paraffin embedded (FFPE)", "PE"),
  ("Formalin-Fixed Paraffin-Embedded", "PE"),
  ("Paraffin", "PE"),
  ("Paraffin wax", "PE")]

def staining_abbreviations : List (String × String) := [
  ("H&E", "HE"),
  ("Hematoxylin and Eosin Staining Method", "HE"),
  ("HE", "HE"),
  ("IHC", "IHC"),
  ("Immunohistochemistry", "IHC"),
  ("PAS", "PAS"),
  ("Masson trichrome", "MT"),
  ("Silver stain", "SS"),
  ("Giemsa", "GI")]

def tissue_type_abbreviations : List (String × String) := [
  ("Normal", "N"),
  ("Tumor", "T"),
  ("Neoplastic", "T")]

/-- `DicomCodeMapper.get_fixation_abbreviation` (falsy input yields `None`,
otherwise a dict lookup). -/
def get_fixation_abbreviation (m : Option String) : Option String :=
  match m with
  | none => none
  | some s => if s = "" then none else fixation_abbreviations.lookup s

def get_embedding_abbreviation (m : Option String) : Option String :=
  match m with
  | none => none
  | some s => if s = "" then none else embedding_abbreviations.lookup s

def get_staining_abbreviation (m : Option String) : Option String :=
  match m with
  | none => none
  | some s => if s = "" then none else staining_abbreviations.lookup s

def get_tissue_type_abbreviation (m : Option String) : Option String :=
  match m with
  | none => none
  | some s => if s = "" then none else tissue_type_abbreviations.lookup s

/-- Python `if abbrev: parts.append(abbrev)`. -/
def appendTruthy (o : Option String) : List String :=
  match o with
  | none => []
  | some a => if a = "" then [] else [a]

/-- Python `" ".join(parts)`. -/
def joinSpace : List String → String
  | [] => ""
  | [a] => a
  | a :: b :: t => a ++ " " ++ joinSpace (b :: t)

/-- Python `s[:n]` on a string. -/
def strTake (n : Nat) (s : String) : String :=
  ⟨s.data.take n⟩

/-- `SpecimenMetadataBuilder.build_short_description`: abbreviations in the
fixed order fixation, embedding, staining, tissue status, space-joined, then
cut to 64 characters. -/
def build_short_description
    (fixation_method staining_method tumor_status : Option String) : String :=
  let parts :=
    appendTruthy (get_fixation_abbreviation fixation_method)
    ++ appendTruthy (get_embedding_abbreviation fixation_method)
    ++ appendTruthy (get_staining_abbreviation staining_method)
    ++ appendTruthy (get_tissue_type_abbreviation tumor_status)
  let description := joinSpace parts
  if description = "" then "" else strTake 64 description

theorem lookup_mem {β : Type} :
    ∀ (l : List (String × β)) (k : String) (v : β),
      l.lookup k = some v → (k, v) ∈ l := by
  intro l
  induction l with
  | nil => intro k v h; simp [List.lookup] at h
  | cons kv t ih =>
    intro k v h
    cases kv with
    | mk k2 v2 =>
      by_cases hk : k = k2
      · subst hk
        simp [List.lookup] at h
        subst h
        exact List.mem_cons_self _ _
      · have hb : (k == k2) = false := beq_eq_false_iff_ne.mpr hk
        rw [List.lookup, hb] at h
        exact List.mem_cons_of_mem _ (ih k v h)

theorem appendTruthy_length (o : Option String) :
    (appendTruthy o).length ≤ 1 := by
  cases o with
  | none => simp [appendTruthy]
  | some a =>
    by_cases h : a = ""
    · simp [appendTruthy, h]
    · simp [appendTruthy, h]

theorem mem_appendTruthy (o : Option String) (a : String)
    (h : a ∈ appendTruthy o) : o = some a := by
  cases o with
  | none => simp [appendTruthy] at h
  | some s =>
    by_cases hs : s = ""
    · simp [appendTruthy, hs] at h
    · simp [appendTruthy, hs] at h
      rw [h]

theorem abbrev_lookup_length_le (tbl : List (String × String)) (b : Nat)
    (hb : ∀ kv ∈ tbl, (kv.2 : String).length ≤ b) (k v : String)
    (h : tbl.lookup k = some v) : v.length ≤ b :=
  hb (k, v) (lookup_mem tbl k v h)

theorem joinSpace_length_le (b : Nat) :
    ∀ (l : List String), (∀ a ∈ l, a.length ≤ b) →
      (joinSpace l).length ≤ l.length * (b + 1) := by
  intro l
  induction l with
  | nil => intro _; simp [joinSpace]
  | cons a t ih =>
    intro h
    cases t with
    | nil =>
      have := h a (by simp)
      simp only [joinSpace, List.length_cons, List.length_nil]
      omega
    | cons c t2 =>
      have ha := h a (by simp)
      have ht : ∀ x ∈ c :: t2, String.length x ≤ b := by
        intro x hx
        exact h x (List.mem_cons_of_mem _ hx)
      have hrec := ih ht
      show (a ++ " " ++ joinSpace (c :: t2)).length ≤ _
      rw [String.length_append, String.length_append]
      simp only [List.length_cons] at hrec ⊢
      have hsp : (" " : String).length = 1 := by decide
      rw [hsp]
      have hmul : (t2.length + 1 + 1) * (b + 1)
          = (t2.length + 1) * (b + 1) + (b + 1) := by ring
      omega

/-- For every combination of inputs, `specimen_builder.py`'s short specimen
description is exactly the space-joined concatenation of the available
abbreviations in the fixed order fixation, embedding, staining, tissue
status (so the 64-character cut never removes anything, in particular never
cuts mid-token), and its length is at most 64. Used by the claim theorem
`c8_short_description` below. -/
theorem build_short_description_spec (fm sm ts : Option String) :
    build_short_description fm sm ts
      = joinSpace (appendTruthy (get_fixation_abbreviation fm)
          ++ appendTruthy (get_embedding_abbreviation fm)
          ++ appendTruthy (get_staining_abbreviation sm)
          ++ appendTruthy (get_tissue_type_abbreviation ts))
    ∧ (build_short_description fm sm ts).length ≤ 64 := by
  set parts := appendTruthy (get_fixation_abbreviation fm)
    ++ appendTruthy (get_embedding_abbreviation fm)
    ++ appendTruthy (get_staining_abbreviation sm)
    ++ appendTruthy (get_tissue_type_abbreviation ts) with hparts
  have hlen : parts.length ≤ 4 := by
    rw [hparts]
    simp only [List.length_append]
    have h1 := appendTruthy_length (get_fixation_abbreviation fm)
    have h2 := appendTruthy_length (get_embedding_abbreviation fm)
    have h3 := appendTruthy_length (get_staining_abbreviation sm)
    have h4 := appendTruthy_length (get_tissue_type_abbreviation ts)
    omega
  have helem : ∀ a ∈ parts, a.length ≤ 3 := by
    intro a ha
    rw [hparts] at ha
    have habbrev : get_fixation_abbreviation fm = some a
        ∨ get_embedding_abbreviation fm = some a
        ∨ get_staining_abbreviation sm = some a
        ∨ get_tissue_type_abbreviation ts = some a := by
      rcases List.mem_append.mp ha with h | h
      · rcases List.mem_append.mp h with h | h
        · rcases List.mem_append.mp h with h | h
          · exact Or.inl (mem_appendTruthy _ _ h)
          · exact Or.inr (Or.inl (mem_appendTruthy _ _ h))
        · exact Or.inr (Or.inr (Or.inl (mem_appendTruthy _ _ h)))
      · exact Or.inr (Or.inr (Or.inr (mem_appendTruthy _ _ h)))
    have hfix : ∀ kv ∈ fixation_abbreviations, (kv.2 : String).length ≤ 3 := by
      decide
    have hemb : ∀ kv ∈ embedding_abbreviations, (kv.2 : String).length ≤ 3 := by
      decide
    have hsta : ∀ kv ∈ staining_abbreviations, (kv.2 : String).length ≤ 3 := by
      decide
    have htis : ∀ kv ∈ tissue_type_abbreviations, (kv.2 : String).length ≤ 3 := by
      decide
    rcases habbrev with h | h | h | h
    · cases fm with
      | none => simp [get_fixation_abbreviation] at h
      | some s =>
        by_cases hs : s = ""
        · simp [get_fixation_abbreviation, hs] at h
        · rw [get_fixation_abbreviation, if_neg hs] at h
          exact abbrev_lookup_length_le _ 3 hfix s a h
    · cases fm with
      | none => simp [get_embedding_abbreviation] at h
      | some s =>
        by_cases hs : s = ""
        · simp [get_embedding_abbreviation, hs] at h
        · rw [get_embedding_abbreviation, if_neg hs] at h
          exact abbrev_lookup_length_le _ 3 hemb s a h
    · cases sm with
      | none => simp [get_staining_abbreviation] at h
      | some s =>
        by_cases hs : s = ""
        · simp [get_staining_abbreviation, hs] at h
        · rw [get_staining_abbreviation, if_neg hs] at h
          exact abbrev_lookup_length_le _ 3 hsta s a h
    · cases ts with
      | none => simp [get_tissue_type_abbreviation] at h
      | some s =>
        by_cases hs : s = ""
        · simp [get_tissue_type_abbreviation, hs] at h
        · rw [get_tissue_type_abbreviation, if_neg hs] at h
          exact abbrev_lookup_length_le _ 3 htis s a h
  have hjoin : (joinSpace parts).length ≤ 64 := by
    have := joinSpace_length_le 3 parts helem
    have : (joinSpace parts).length ≤ 4 * 4 := by
      calc (joinSpace parts).length ≤ parts.length * 4 := this
        _ ≤ 4 * 4 := by omega
    omega
  have heq : build_short_description fm sm ts = joinSpace parts := by
    unfold build_short_description
    rw [← hparts]
    by_cases hd : joinSpace parts = ""
    · simp [hd]
    · rw [if_neg hd]
      unfold strTake
      have : (joinSpace parts).data.take 64 = (joinSpace parts).data :=
        List.take_of_length_le hjoin
      rw [this]
  exact ⟨heq, heq ▸ hjoin⟩

/-! ### Diagnosis rows and diagnosis-code parsing

`csv_loaders.py::MCICCDILoader._get_value` (missing/empty cells become an
explicit absent value, others are stripped), the diagnosis row of
`diagnosis.csv`, and `code_mapper.py::resolve_diagnosis_code`. -/

/-- `_get_value`: `None` for a missing/empty cell, otherwise the stripped
string. A raw cell is modelled as a `String`, `""` meaning missing. -/
def getValue (s : String) : Option String :=
  if s = "" then none else some (pyStrip s)

/-- Python truthiness of an optional string (`None` and `""` are falsy). -/
def truthyStr (o : Option String) : Option String :=
  match o with
  | none => none
  | some s => if s = "" then none else some s

structure DiagRow where
  diagnosis_id : String
  participant_id : String
  sample_id : String
  diagnosis : String
  anatomic_site : String
  diagnosis_comment : String
deriving DecidableEq

/-- The dict returned by `MCICCDILoader.get_diagnosis_data` (restricted to
the fields the specification's claims concern). -/
structure DiagnosisData where
  diagnosis : Option String
  diagnosis_comment : Option String
  anatomic_site : Option String
deriving DecidableEq

def row_to_diagnosis_dict (r : DiagRow) : DiagnosisData :=
  { diagnosis := getValue r.diagnosis
    diagnosis_comment := getValue r.diagnosis_comment
    anatomic_site := getValue r.anatomic_site }

/-- `DicomCodeMapper.resolve_diagnosis_code`: empty diagnosis or the literal
`"see diagnosis_comment"` fall back to the comment; otherwise split on the
first `" : "`, discard codes starting with `"999"`, and for separator-free
strings consult the optional ICD-O code table before returning the whole
string as free text. Returns `(code, scheme, meaning)`. -/
def resolve_diagnosis_code (icd_o_codes : String → Option String)
    (d : DiagnosisData) :
    Option String × Option String × Option String :=
  match truthyStr d.diagnosis with
  | none =>
    match truthyStr d.diagnosis_comment with
    | some c => (none, none, some c)
    | none => (none, none, none)
  | some diag =>
    if diag = "see diagnosis_comment" then
      match truthyStr d.diagnosis_comment with
      | some c => (none, none, some c)
      | none => (none, none, none)
    else
      match splitOnFirst " : ".data diag.data with
      | some (a, b) =>
        let code := pyStrip ⟨a⟩
        let meaning := pyStrip ⟨b⟩
        if pyStartsWith code "999" then (none, none, some meaning)
        else (some code, some ICDO3, some meaning)
      | none =>
        match icd_o_codes diag with
        | some m => (some diag, some ICDO3, some m)
        | none => (none, none, some diag)

/-- The parse as the claim words it: split on the first `" : "`; a code with
the reserved unknown prefix is discarded; with no separator the whole string
becomes the free-text description with no code. -/
def parse_diagnosis_claimed (raw : String) :
    Option String × Option String × Option String :=
  match splitOnFirst " : ".data raw.data with
  | some (a, b) =>
    let code := pyStrip ⟨a⟩
    let meaning := pyStrip ⟨b⟩
    if pyStartsWith code "999" then (none, none, some meaning)
    else (some code, some ICDO3, some meaning)
  | none => (none, none, some raw)

/-- C6 counterexample: on the separator-free diagnosis string
`"see diagnosis_comment"` the code substitutes the comment field, while the
claim says the whole string becomes the description. -/
theorem c6_parse_diagnosis_counterexample :
    resolve_diagnosis_code (fun _ => none)
        ⟨some "see diagnosis_comment", some "Anaplastic astrocytoma", none⟩
      = (none, none, some "Anaplastic astrocytoma")
    ∧ parse_diagnosis_claimed "see diagnosis_comment"
      = (none, none, some "see diagnosis_comment")
    ∧ resolve_diagnosis_code (fun _ => none)
        ⟨some "see diagnosis_comment", some "Anaplastic astrocytoma", none⟩
      ≠ parse_diagnosis_claimed "see diagnosis_comment" := by
  refine ⟨by decide, by decide, by decide⟩

/-! ### Diagnosis row selection (`csv_loaders.py::get_diagnosis_data`) -/

/-- A diagnosis row flagged as an auxiliary classification variant. -/
def is_variant_id (id : String) : Bool :=
  pyIn "_CNS_category" id || pyIn "_CNS5_diagnosis" id

/-- The match set: search by participant id first (an absent participant id
matches nothing, as a pandas comparison with `None` does), falling back to
the sample id only when that search is empty and a sample id was given. -/
def diagnosis_matches (rows : List DiagRow) (participant_id : Option String)
    (sample_id : Option String) : List DiagRow :=
  let m := match participant_id with
           | some p => rows.filter (fun r => r.participant_id == p)
           | none => []
  if m.isEmpty then
    match sample_id with
    | some s => rows.filter (fun r => r.sample_id == s)
    | none => m
  else m

/-- `MCICCDILoader.get_diagnosis_data`, selection part: drop variant rows,
take the first survivor; when its code starts with `"999"` prefer the first
`_CNS5_diagnosis` row among all matches; when every match is a variant row
take the first match anyway. -/
def select_diagnosis_row (rows : List DiagRow) (participant_id : Option String)
    (sample_id : Option String) : Option DiagRow :=
  match diagnosis_matches rows participant_id sample_id with
  | [] => none
  | m1 :: mrest =>
    match (m1 :: mrest).filter (fun r => !(is_variant_id r.diagnosis_id)) with
    | p1 :: _ =>
      some (match getValue p1.diagnosis with
        | some d =>
          if pyStartsWith d "999" then
            match (m1 :: mrest).filter
                (fun r => pyIn "_CNS5_diagnosis" r.diagnosis_id) with
            | c1 :: _ => c1
            | [] => p1
          else p1
        | none => p1)
    | [] => some m1

/-- The selection as the claim words it: variant rows are excluded outright
(apart from the `999` preference), so when every match is a variant row
nothing is returned. -/
def select_diagnosis_claimed (rows : List DiagRow)
    (participant_id : Option String) (sample_id : Option String) :
    Option DiagRow :=
  match (diagnosis_matches rows participant_id sample_id).filter
      (fun r => !(is_variant_id r.diagnosis_id)) with
  | p1 :: _ =>
    some (match getValue p1.diagnosis with
      | some d =>
        if pyStartsWith d "999" then
          match (diagnosis_matches rows participant_id sample_id).filter
              (fun r => pyIn "_CNS5_diagnosis" r.diagnosis_id) with
          | c1 :: _ => c1
          | [] => p1
        else p1
      | none => p1)
  | [] => none

/-- The amended selection: as claimed, except that when every matching row is
a variant row the first match is returned anyway. -/
def select_diagnosis_amended (rows : List DiagRow)
    (participant_id : Option String) (sample_id : Option String) :
    Option DiagRow :=
  match (diagnosis_matches rows participant_id sample_id).filter
      (fun r => !(is_variant_id r.diagnosis_id)) with
  | p1 :: _ =>
    some (match getValue p1.diagnosis with
      | some d =>
        if pyStartsWith d "999" then
          match (diagnosis_matches rows participant_id sample_id).filter
              (fun r => pyIn "_CNS5_diagnosis" r.diagnosis_id) with
          | c1 :: _ => c1
          | [] => p1
        else p1
      | none => p1)
  | [] => (diagnosis_matches rows participant_id sample_id).head?

/-- C4 counterexample: when the only matching diagnosis row is itself a
variant row, the code returns that variant row while the claimed filter
would exclude it and return nothing. -/
theorem c4_diagnosis_selection_counterexample :
    select_diagnosis_row
        [⟨"D1_CNS_category", "P1", "", "9400/3 : Glioma", "", ""⟩]
        (some "P1") none
      = some ⟨"D1_CNS_category", "P1", "", "9400/3 : Glioma", "", ""⟩
    ∧ select_diagnosis_claimed
        [⟨"D1_CNS_category", "P1", "", "9400/3 : Glioma", "", ""⟩]
        (some "P1") none
      = none
    ∧ select_diagnosis_row
        [⟨"D1_CNS_category", "P1", "", "9400/3 : Glioma", "", ""⟩]
        (some "P1") none
      ≠ select_diagnosis_claimed
        [⟨"D1_CNS_category", "P1", "", "9400/3 : Glioma", "", ""⟩]
        (some "P1") none := by
  refine ⟨by decide, by decide, by decide⟩

theorem find?_filter {α : Type} (l : List α) (p q : α → Bool) :
    (l.filter p).find? q = l.find? (fun a => p a && q a) := by
  induction l with
  | nil => rfl
  | cons a t ih =>
    by_cases hp : p a
    · by_cases hq : q a
      · simp [List.filter_cons, List.find?_cons, hp, hq]
      · simp [List.filter_cons, List.find?_cons, hp, hq, ih]
    · simp [List.filter_cons, List.find?_cons, hp, ih]

/-! ### Source tables and the two resolution pipelines

Rows are string-keyed records; `""` models a missing/empty cell (CSV readers
deliver strings). `Tables` holds the four related tables. -/

structure PathRow where
  file_name : String
  sample_id : String
  fixation_embedding_method : String
  staining_method : String
deriving DecidableEq

structure SampRow where
  sample_id : String
  participant_id : String
  anatomic_site : String
  sample_tumor_status : String
deriving DecidableEq

structure PartRow where
  participant_id : String
  sex_at_birth : String
  race : String
deriving DecidableEq

structure Tables where
  pathology : List PathRow
  samples : List SampRow
  participants : List PartRow
  diagnoses : List DiagRow

inductive ConvError where
  | NotFound
  | IncompleteData
deriving DecidableEq

/-! #### `ccdi_loader.py::CCDIMetadataLoader.load_slide` -/

def find_pathology_rows (t : Tables) (filename : String) : List PathRow :=
  t.pathology.filter (fun r => r.file_name == filename)

def find_sample_row (t : Tables) (sid : String) : Option SampRow :=
  t.samples.find? (fun r => r.sample_id == sid)

def find_participant_row (t : Tables) (pid : String) : Option PartRow :=
  t.participants.find? (fun r => r.participant_id == pid)

/-- `_find_diagnosis_row`: first row for the participant whose id is not a
CNS variant. -/
def find_diagnosis_row (t : Tables) (pid : String) : Option DiagRow :=
  t.diagnoses.find? (fun r =>
    r.participant_id == pid && !(is_variant_id r.diagnosis_id))

/-- `metadata_schema.py::SpecimenInfo`, restricted to the fields the claims
concern. -/
structure SpecimenInfo where
  specimen_id : String
  anatomic_site : Option String
  fixation_method : String
  staining_method : String
  sample_tumor_status : String
deriving DecidableEq

/-- `_build_specimen_info_list`: pair pathology and resolved sample rows;
the diagnosis's anatomic site takes precedence, the sample's own site is
only a fallback. -/
def build_specimen_info_list (prows : List PathRow) (srows : List SampRow)
    (drow : Option DiagRow) : List SpecimenInfo :=
  (prows.zip srows).map (fun pr =>
    let diagSite : Option String :=
      match drow with
      | some d => if d.anatomic_site ≠ "" then some d.anatomic_site else none
      | none => none
    let site : Option String :=
      match diagSite with
      | some s => some s
      | none =>
        if pr.2.anatomic_site ≠ "" then some pr.2.anatomic_site else none
    { specimen_id := pr.2.sample_id
      anatomic_site := site
      fixation_method := pr.1.fixation_embedding_method
      staining_method := pr.1.staining_method
      sample_tumor_status := pr.2.sample_tumor_status })

/-- `metadata_schema.py::DiagnosisInfo`, restricted. -/
structure DiagnosisInfo where
  diagnosis_id : String
  diagnosis_code : Option String
  diagnosis_description : String
  anatomic_site : String
deriving DecidableEq

/-- `_build_diagnosis_info` (restricted): split the diagnosis string on the
first `" : "` into code and description. -/
def build_diagnosis_info (r : DiagRow) : DiagnosisInfo :=
  match splitOnFirst " : ".data r.diagnosis.data with
  | some (a, b) =>
    { diagnosis_id := r.diagnosis_id
      diagnosis_code := some (pyStrip ⟨a⟩)
      diagnosis_description := pyStrip ⟨b⟩
      anatomic_site := r.anatomic_site }
  | none =>
    { diagnosis_id := r.diagnosis_id
      diagnosis_code := none
      diagnosis_description := r.diagnosis
      anatomic_site := r.anatomic_site }

/-- `metadata_schema.py::DomainMetadata`, restricted. -/
structure DomainMetadata where
  participant_id : String
  specimens : List SpecimenInfo
  diagnosis : Option DiagnosisInfo
deriving DecidableEq

/-- `CCDIMetadataLoader.load_slide`: pathology rows for the filename (fail
`NotFound` when none), join to sample rows, owning participant from the
first resolved sample with a non-empty participant id (fail `IncompleteData`
when none, or when the participant row is absent), optional diagnosis,
specimen list. -/
def load_slide (t : Tables) (filename : String) :
    Except ConvError DomainMetadata :=
  let pathology_rows := find_pathology_rows t filename
  if pathology_rows.isEmpty then Except.error ConvError.NotFound
  else
    let sample_ids := pathology_rows.map (fun r => r.sample_id)
    let sample_rows := sample_ids.filterMap (fun sid => find_sample_row t sid)
    match (sample_rows.map (fun r => r.participant_id)).filter
        (fun p => p ≠ "") with
    | [] => Except.error ConvError.IncompleteData
    | participant_id :: _ =>
      match find_participant_row t participant_id with
      | none => Except.error ConvError.IncompleteData
      | some _prow =>
        let diagnosis_row := find_diagnosis_row t participant_id
        Except.ok
          { participant_id := participant_id
            specimens :=
              build_specimen_info_list pathology_rows sample_rows diagnosis_row
            diagnosis := diagnosis_row.map build_diagnosis_info }

/-- C4 amended. In `csv_loaders.py::get_diagnosis_data`: the selection
searches by participant id first, falls back to the sample id only when that
search is empty, excludes variant rows with the `999`-preference proviso and
takes the first survivor in source order — except that when every matching
row is a variant row, the first matching row is taken anyway. In
`ccdi_loader.py::_find_diagnosis_row`: the search is by participant id only,
every variant row is excluded outright, the first survivor in source order
is taken, and nothing is returned when no row survives (no sample-id
fallback, no unknown-prefix preference). -/
theorem c4_diagnosis_selection_amended (rows : List DiagRow)
    (participant_id : Option String) (sample_id : Option String)
    (t : Tables) (pid : String) :
    select_diagnosis_row rows participant_id sample_id
      = select_diagnosis_amended rows participant_id sample_id
    ∧ find_diagnosis_row t pid
      = (t.diagnoses.filter (fun r => r.participant_id == pid)).find?
          (fun r => !(is_variant_id r.diagnosis_id))
    ∧ ((∀ r ∈ t.diagnoses.filter (fun r => r.participant_id == pid),
          is_variant_id r.diagnosis_id = true) →
        find_diagnosis_row t pid = none) := by
  have hfd : find_diagnosis_row t pid
      = (t.diagnoses.filter (fun r => r.participant_id == pid)).find?
          (fun r => !(is_variant_id r.diagnosis_id)) :=
    (find?_filter t.diagnoses (fun r => r.participant_id == pid)
      (fun r => !(is_variant_id r.diagnosis_id))).symm
  refine ⟨?_, hfd, ?_⟩
  · unfold select_diagnosis_row select_diagnosis_amended
    cases hm : diagnosis_matches rows participant_id sample_id with
    | nil => simp
    | cons m1 mrest =>
      cases hp : (m1 :: mrest).filter (fun r => !(is_variant_id r.diagnosis_id)) with
      | nil => simp [hp]
      | cons p1 prest => simp [hp]
  · intro hall
    rw [hfd]
    apply List.find?_eq_none.mpr
    intro r hr
    simp [hall r hr]

/-- Witness for C4's amended theorem: a participant whose only diagnosis row
is a variant row gets nothing from `_find_diagnosis_row`. -/
theorem c4_diagnosis_selection_amended_witness :
    find_diagnosis_row
      ⟨[], [], [], [⟨"D2_CNS5_diagnosis", "P9", "", "9470/3 : M", "", ""⟩]⟩
      "P9" = none :=
  (c4_diagnosis_selection_amended [] none none
      ⟨[], [], [], [⟨"D2_CNS5_diagnosis", "P9", "", "9470/3 : M", "", ""⟩]⟩
      "P9").2.2 (by decide)

/-- C6 amended. In `code_mapper.py::resolve_diagnosis_code`: the claimed
split/discard/free-text behaviour holds whenever the diagnosis string is
non-empty, is not the literal `"see diagnosis_comment"`, and (for
separator-free strings) is absent from the optional ICD-O code table; an
empty or `"see diagnosis_comment"` diagnosis yields the comment field as
the description, and a separator-free string found in the ICD-O table
yields that string as the code with the table's meaning.
`"9470/3 : Medulloblastoma, NOS"` parses to code `9470/3`, scheme `ICDO3`,
meaning `"Medulloblastoma, NOS"`. In
`ccdi_loader.py::_build_diagnosis_info`: the same split applies, but the
code is kept even when it starts with the reserved unknown prefix, there is
no comment substitution and no table lookup, and with no separator the
whole (unstripped) string becomes the description with no code. -/
theorem c6_parse_diagnosis_amended (icd : String → Option String)
    (raw : String) (cm : Option String) (anat : Option String)
    (h1 : raw ≠ "") (h2 : raw ≠ "see diagnosis_comment") :
    ((splitOnFirst " : ".data raw.data).isSome = true →
      resolve_diagnosis_code icd ⟨some raw, cm, anat⟩
        = parse_diagnosis_claimed raw)
    ∧ (splitOnFirst " : ".data raw.data = none → icd raw = none →
      resolve_diagnosis_code icd ⟨some raw, cm, anat⟩
        = parse_diagnosis_claimed raw)
    ∧ (∀ m : String, splitOnFirst " : ".data raw.data = none →
        icd raw = some m →
        resolve_diagnosis_code icd ⟨some raw, cm, anat⟩
          = (some raw, some ICDO3, some m))
    ∧ resolve_diagnosis_code icd ⟨some "see diagnosis_comment", cm, anat⟩
        = (none, none, truthyStr cm)
    ∧ resolve_diagnosis_code icd
        ⟨some "9470/3 : Medulloblastoma, NOS", cm, anat⟩
        = (some "9470/3", some ICDO3, some "Medulloblastoma, NOS")
    ∧ (∀ (r : DiagRow) (a b : List Char),
        splitOnFirst " : ".data r.diagnosis.data = some (a, b) →
        build_diagnosis_info r
          = ⟨r.diagnosis_id, some (pyStrip ⟨a⟩), pyStrip ⟨b⟩, r.anatomic_site⟩)
    ∧ (∀ r : DiagRow, splitOnFirst " : ".data r.diagnosis.data = none →
        build_diagnosis_info r
          = ⟨r.diagnosis_id, none, r.diagnosis, r.anatomic_site⟩)
    ∧ build_diagnosis_info ⟨"D9", "P1", "", "9999/0 : Unknown tumor", "", ""⟩
        = ⟨"D9", some "9999/0", "Unknown tumor", ""⟩ := by
  have hr : truthyStr (some raw) = some raw := by simp [truthyStr, h1]
  refine ⟨?_, ?_, ?_, ?_, ?_, ?_, ?_, ?_⟩
  · intro hsep
    obtain ⟨p, hp⟩ := Option.isSome_iff_exists.mp hsep
    obtain ⟨a, b⟩ := p
    show resolve_diagnosis_code icd ⟨some raw, cm, anat⟩ = _
    unfold resolve_diagnosis_code parse_diagnosis_claimed
    rw [hr]
    simp only [if_neg h2, hp]
  · intro hsep _hicd
    unfold resolve_diagnosis_code parse_diagnosis_claimed
    rw [hr]
    simp only [if_neg h2, hsep, _hicd]
  · intro m hsep hicd
    unfold resolve_diagnosis_code
    rw [hr]
    simp only [if_neg h2, hsep, hicd]
  · show resolve_diagnosis_code icd ⟨some "see diagnosis_comment", cm, anat⟩ = _
    unfold resolve_diagnosis_code
    have : truthyStr (some "see diagnosis_comment")
        = some "see diagnosis_comment" := by decide
    rw [this]
    simp only [if_pos rfl]
    cases hcm : truthyStr cm with
    | none => simp
    | some c => simp
  · rfl
  · intro r a b hsep
    unfold build_diagnosis_info
    rw [hsep]
  · intro r hsep
    unfold build_diagnosis_info
    rw [hsep]
  · rfl

/-- Witness for C6's amended theorem: a separator hit and a separator miss
through both parsers. -/
theorem c6_parse_diagnosis_amended_witness :
    resolve_diagnosis_code (fun _ => none)
        ⟨some "9470/3 : Medulloblastoma, NOS", none, none⟩
      = parse_diagnosis_claimed "9470/3 : Medulloblastoma, NOS"
    ∧ resolve_diagnosis_code (fun _ => none)
        ⟨some "Anaplastic tumor", none, none⟩
      = parse_diagnosis_claimed "Anaplastic tumor"
    ∧ build_diagnosis_info ⟨"D1", "P1", "", "9470/3 : Medulloblastoma, NOS",
        "", ""⟩
      = ⟨"D1", some "9470/3", "Medulloblastoma, NOS", ""⟩
    ∧ build_diagnosis_info ⟨"D3", "P1", "", "Anaplastic tumor", "", ""⟩
      = ⟨"D3", none, "Anaplastic tumor", ""⟩ :=
  ⟨(c6_parse_diagnosis_amended (fun _ => none) "9470/3 : Medulloblastoma, NOS"
      none none (by decide) (by decide)).1 (by decide),
   (c6_parse_diagnosis_amended (fun _ => none) "Anaplastic tumor"
      none none (by decide) (by decide)).2.1 (by decide) rfl,
   (c6_parse_diagnosis_amended (fun _ => none) "x" none none (by decide)
      (by decide)).2.2.2.2.2.1
     ⟨"D1", "P1", "", "9470/3 : Medulloblastoma, NOS", "", ""⟩
     "9470/3".data "Medulloblastoma, NOS".data (by decide),
   (c6_parse_diagnosis_amended (fun _ => none) "x" none none (by decide)
      (by decide)).2.2.2.2.2.2.1
     ⟨"D3", "P1", "", "Anaplastic tumor", "", ""⟩ (by decide)⟩

/-- `metadata_schema.py::DomainMetadata.get_specimen_short_description`: the
raw fixation and staining strings plus a tumor-status letter, space-joined;
the specimen id when all three are missing; no truncation. -/
def get_specimen_short_description (specimen : SpecimenInfo) : String :=
  let parts :=
    (if specimen.fixation_method ≠ "" then [specimen.fixation_method] else [])
    ++ (if specimen.staining_method ≠ "" then [specimen.staining_method]
        else [])
    ++ (if specimen.sample_tumor_status ≠ "" then
          [if specimen.sample_tumor_status = "Tumor" then "T" else "N"]
        else [])
  if parts.isEmpty then specimen.specimen_id else joinSpace parts

/-- C8 counterexample: the per-specimen description of `metadata_schema.py`
joins the raw fixation and staining strings with no truncation — a realistic
input yields a 79-character description that is not built from abbreviations
and exceeds the claimed 64-character bound. -/
theorem c8_short_description_counterexample :
    get_specimen_short_description ⟨"S1", none,
        "Formalin fixed paraffin embedded (FFPE)",
        "Hematoxylin and Eosin Staining Method", "Tumor"⟩
      = "Formalin fixed paraffin embedded (FFPE) Hematoxylin and Eosin Staining Method T"
    ∧ 64 < (get_specimen_short_description ⟨"S1", none,
        "Formalin fixed paraffin embedded (FFPE)",
        "Hematoxylin and Eosin Staining Method", "Tumor"⟩).length := by
  refine ⟨by decide, by decide⟩

/-- C8 amended. In `specimen_builder.py::build_short_description` the claim
holds: the description is exactly the space-joined concatenation of the
available abbreviations in the fixed order fixation, embedding, staining,
tissue status (the 64-character cut never removes anything, in particular
never cuts mid-token) and is at most 64 characters long. In
`metadata_schema.py::get_specimen_short_description` the raw fixation and
staining strings (with no embedding token) and a tumor-status letter are
joined with no length bound, and the specimen id is returned when all three
fields are missing. -/
theorem c8_short_description (fm sm ts : Option String)
    (sp sp2 : SpecimenInfo)
    (hf : sp.fixation_method ≠ "") (hs : sp.staining_method ≠ "")
    (ht : sp.sample_tumor_status ≠ "")
    (hf2 : sp2.fixation_method = "") (hs2 : sp2.staining_method = "")
    (ht2 : sp2.sample_tumor_status = "") :
    build_short_description fm sm ts
      = joinSpace (appendTruthy (get_fixation_abbreviation fm)
          ++ appendTruthy (get_embedding_abbreviation fm)
          ++ appendTruthy (get_staining_abbreviation sm)
          ++ appendTruthy (get_tissue_type_abbreviation ts))
    ∧ (build_short_description fm sm ts).length ≤ 64
    ∧ get_specimen_short_description sp
      = sp.fixation_method ++ " " ++ sp.staining_method ++ " "
        ++ (if sp.sample_tumor_status = "Tumor" then "T" else "N")
    ∧ get_specimen_short_description sp2 = sp2.specimen_id := by
  obtain ⟨hA, hB⟩ := build_short_description_spec fm sm ts
  refine ⟨hA, hB, ?_, ?_⟩
  · simp only [get_specimen_short_description, hf, hs, ht, ne_eq,
      not_false_eq_true, if_true, if_neg, ite_not]
    simp [hf, hs, ht, joinSpace, String.append_assoc]
  · simp [get_specimen_short_description, hf2, hs2, ht2]

/-- Witness for C8's amended theorem: both builders at concrete inputs. -/
theorem c8_short_description_witness :
    build_short_description (some "OCT") (some "H&E") (some "Tumor")
      = joinSpace (appendTruthy (get_fixation_abbreviation (some "OCT"))
          ++ appendTruthy (get_embedding_abbreviation (some "OCT"))
          ++ appendTruthy (get_staining_abbreviation (some "H&E"))
          ++ appendTruthy (get_tissue_type_abbreviation (some "Tumor")))
    ∧ get_specimen_short_description ⟨"S1", none, "OCT", "H&E", "Tumor"⟩
      = "OCT H&E T"
    ∧ get_specimen_short_description ⟨"S9", none, "", "", ""⟩ = "S9" :=
  have h := c8_short_description (some "OCT") (some "H&E") (some "Tumor")
    ⟨"S1", none, "OCT", "H&E", "Tumor"⟩ ⟨"S9", none, "", "", ""⟩
    (by decide) (by decide) (by decide) rfl rfl rfl
  ⟨h.1, h.2.2.1, h.2.2.2⟩

/-! #### `metadata_handler.py` + `csv_loaders.py` (pandas pipeline) -/

/-- `csv_loaders.py::SampleData`, restricted to the fields the claims
concern. Values are options: pandas turns empty cells into `NaN`, and
`_get_value` maps them to `None`. -/
structure SampleData where
  sample_id : String
  participant_id : Option String
  anatomic_site : Option String
  tumor_status : Option String
  fixation_method : Option String
  staining_method : Option String
deriving DecidableEq

/-- `pandas.Series.unique`: deduplicate keeping first occurrences. -/
def uniqFirst (l : List String) : List String :=
  l.foldl (fun acc x => if x ∈ acc then acc else acc ++ [x]) []

/-- `MCICCDILoader.get_samples_for_file`: pathology rows for the filename,
sample-id column, `dropna` (empty cells), `unique`. -/
def get_samples_for_file (t : Tables) (filename : String) : List String :=
  uniqFirst
    (((t.pathology.filter (fun r => r.file_name == filename)).map
      (fun r => r.sample_id)).filter (fun s => s ≠ ""))

/-- `MCICCDILoader.get_sample_data`: first sample row with the id. -/
def get_sample_data (t : Tables) (sid : String) : Option SampleData :=
  match t.samples.find? (fun r => r.sample_id == sid) with
  | none => none
  | some row =>
    some
      { sample_id := sid
        participant_id := getValue row.participant_id
        anatomic_site := getValue row.anatomic_site
        tumor_status := getValue row.sample_tumor_status
        fixation_method := none
        staining_method := none }

/-- `MCICCDILoader.get_imaging_data`: the `(filename, sample_id)` row, or any
row for the filename when the exact pair is absent. -/
def get_imaging_data (t : Tables) (filename sid : String) :
    Option (Option String × Option String) :=
  let matchRows := t.pathology.filter
    (fun r => r.file_name == filename && r.sample_id == sid)
  let matchRows :=
    if matchRows.isEmpty then
      t.pathology.filter (fun r => r.file_name == filename)
    else matchRows
  match matchRows with
  | [] => none
  | row :: _ =>
    some (getValue row.fixation_embedding_method, getValue row.staining_method)

/-- `WSIMetadataHandler.load_metadata_for_file`: resolve each associated
sample id, keep only found samples, enrich each with per-file imaging
attributes. -/
def load_metadata_for_file (t : Tables) (filename : String) :
    List SampleData :=
  (get_samples_for_file t filename).filterMap (fun sid =>
    (get_sample_data t sid).map (fun sd =>
      match get_imaging_data t filename sid with
      | some (fx, stn) => { sd with fixation_method := fx, staining_method := stn }
      | none => sd))

/-- `if not sample.anatomic_site or sample.anatomic_site in
("Not Reported", "Invalid value")`. -/
def site_missing (o : Option String) : Bool :=
  match o with
  | none => true
  | some v => v = "" || v = "Not Reported" || v = "Invalid value"

/-- The back-fill loop in `WSIMetadataHandler.get_patient_data`: when the
diagnosis carries a (truthy) anatomic site, copy it into every sample whose
own site is absent or a sentinel. -/
def enrich_sample_sites (diagnosis_anatomy : Option String)
    (samples : List SampleData) : List SampleData :=
  match truthyStr diagnosis_anatomy with
  | none => samples
  | some da =>
    samples.map (fun s =>
      if site_missing s.anatomic_site then { s with anatomic_site := some da }
      else s)

/-- The result of `get_patient_data`, restricted: the owning participant, the
selected diagnosis dict, and the (possibly back-filled) samples. -/
structure ResolvedPatient where
  patient_id : Option String
  diagnosis : Option DiagnosisData
  samples : List SampleData
deriving DecidableEq

/-- `WSIMetadataHandler.get_patient_data`: fails when no samples resolved;
owning participant is the first sample's; diagnosis via
`get_diagnosis_data(participant_id, first_sample.sample_id)`; back-fill of
sample anatomic sites from the diagnosis. -/
def get_patient_data (t : Tables) (samples : List SampleData) :
    Except ConvError ResolvedPatient :=
  match samples with
  | [] => Except.error ConvError.NotFound
  | first :: rest =>
    let participant_id := first.participant_id
    let diagnosis :=
      (select_diagnosis_row t.diagnoses participant_id
        (some first.sample_id)).map row_to_diagnosis_dict
    let samples2 :=
      match diagnosis with
      | some d => enrich_sample_sites d.anatomic_site (first :: rest)
      | none => first :: rest
    Except.ok
      { patient_id := participant_id
        diagnosis := diagnosis
        samples := samples2 }

/-! ### C2: zero specimens is an error, never an empty graph -/

/-- C2. When the file-association table has no rows for the filename,
`load_slide` fails with `NotFound`; every successfully resolved graph has a
non-empty specimen list; and the pandas pipeline's `get_patient_data`
likewise fails on an empty sample list. -/
theorem c2_zero_specimens (t : Tables) (filename : String) :
    (find_pathology_rows t filename = [] →
      load_slide t filename = Except.error ConvError.NotFound)
    ∧ (∀ md, load_slide t filename = Except.ok md → md.specimens ≠ [])
    ∧ get_patient_data t [] = Except.error ConvError.NotFound := by
  refine ⟨?_, ?_, rfl⟩
  · intro h
    simp [load_slide, h]
  · intro md h
    simp only [load_slide] at h
    by_cases hp : (find_pathology_rows t filename).isEmpty
    · simp [hp] at h
    · simp only [hp, Bool.false_eq_true, if_false] at h
      split at h
      · exact absurd h (by simp)
      · rename_i pid prest hpl
        split at h
        · exact absurd h (by simp)
        · rename_i prow hfp
          simp only [Except.ok.injEq] at h
          subst h
          have hprows : find_pathology_rows t filename ≠ [] := by
            intro he
            rw [he] at hp
            exact hp rfl
          have hsrows : ((find_pathology_rows t filename).map
              (fun r => r.sample_id)).filterMap
                (fun sid => find_sample_row t sid) ≠ [] := by
            intro he
            rw [he] at hpl
            simp at hpl
          show build_specimen_info_list _ _ _ ≠ []
          unfold build_specimen_info_list
          cases hc1 : find_pathology_rows t filename with
          | nil => exact absurd hc1 hprows
          | cons a1 t1 =>
            cases hc2 : ((find_pathology_rows t filename).map
                (fun r => r.sample_id)).filterMap
                  (fun sid => find_sample_row t sid) with
            | nil => exact absurd hc2 hsrows
            | cons b1 t2 =>
              rw [hc1] at hc2
              rw [hc2]
              simp

/-- Concrete tables witnessing C2: one slide with one resolvable specimen. -/
def tablesC2 : Tables :=
  { pathology := [⟨"A.svs", "S1", "", ""⟩]
    samples := [⟨"S1", "P1", "", ""⟩]
    participants := [⟨"P1", "", ""⟩]
    diagnoses := [] }

/-- Witness for C2: an unknown filename fails with `NotFound`, and the graph
resolved for the known filename has a non-empty specimen list. -/
theorem c2_zero_specimens_witness :
    load_slide tablesC2 "missing.svs" = Except.error ConvError.NotFound
    ∧ (⟨"P1", [⟨"S1", none, "", "", ""⟩], none⟩ : DomainMetadata).specimens ≠ []
    ∧ get_patient_data tablesC2 [] = Except.error ConvError.NotFound :=
  ⟨(c2_zero_specimens tablesC2 "missing.svs").1 rfl,
   (c2_zero_specimens tablesC2 "A.svs").2.1
     ⟨"P1", [⟨"S1", none, "", "", ""⟩], none⟩ rfl,
   (c2_zero_specimens tablesC2 "x").2.2⟩

/-! ### C3: owning participant and the per-specimen participant invariant -/

/-- Concrete tables refuting C3's invariant: one file referencing two samples
owned by different participants. -/
def tablesC3 : Tables :=
  { pathology := [⟨"F.svs", "S1", "", ""⟩, ⟨"F.svs", "S2", "", ""⟩]
    samples := [⟨"S1", "P1", "", ""⟩, ⟨"S2", "P2", "", ""⟩]
    participants := [⟨"P1", "", ""⟩]
    diagnoses := [] }

/-- C3 counterexample: the resolution succeeds with owning participant `P1`
(the first specimen's), but the second resolved specimen still carries its
own participant id `P2`: the invariant that every specimen's participant
matches the graph's participant is not enforced. -/
theorem c3_participant_counterexample :
    get_patient_data tablesC3 (load_metadata_for_file tablesC3 "F.svs")
      = Except.ok ⟨some "P1", none,
          [⟨"S1", some "P1", none, none, none, none⟩,
           ⟨"S2", some "P2", none, none, none, none⟩]⟩
    ∧ ∃ s ∈ [(⟨"S1", some "P1", none, none, none, none⟩ : SampleData),
              ⟨"S2", some "P2", none, none, none, none⟩],
        s.participant_id ≠ some "P1" := by
  refine ⟨rfl, ?_⟩
  refine ⟨⟨"S2", some "P2", none, none, none, none⟩, by decide, by decide⟩

/-- C3 amended. In the pandas pipeline (`metadata_handler.py`), the owning
participant is the participant referenced by the first resolved sample. In
`ccdi_loader.py::load_slide`, the owning participant is the first non-empty
participant id among the resolved sample rows in source order — which is the
first resolved sample's participant whenever that cell is non-empty. In both
pipelines each specimen keeps the participant data of its own sample row, so
the per-specimen invariant holds exactly when all resolved samples reference
the owning participant (the code does not enforce it). -/
theorem c3_owner_first_amended (t : Tables) :
    (∀ (first : SampleData) (rest : List SampleData) (res : ResolvedPatient),
      get_patient_data t (first :: rest) = Except.ok res →
      res.patient_id = first.participant_id
      ∧ ((∀ s ∈ first :: rest, s.participant_id = first.participant_id) →
          ∀ s ∈ res.samples, s.participant_id = res.patient_id))
    ∧ (∀ (filename : String) (md : DomainMetadata),
        load_slide t filename = Except.ok md →
        ∃ ps, (((((find_pathology_rows t filename).map
            (fun r => r.sample_id)).filterMap
              (fun sid => find_sample_row t sid)).map
                (fun r => r.participant_id)).filter (fun p => p ≠ ""))
          = md.participant_id :: ps)
    ∧ (∀ (filename : String) (md : DomainMetadata) (s1 : SampRow)
        (srest : List SampRow),
        load_slide t filename = Except.ok md →
        ((find_pathology_rows t filename).map (fun r => r.sample_id)).filterMap
            (fun sid => find_sample_row t sid) = s1 :: srest →
        s1.participant_id ≠ "" →
        md.participant_id = s1.participant_id) := by
  have hslide : ∀ (filename : String) (md : DomainMetadata),
      load_slide t filename = Except.ok md →
      ∃ ps, (((((find_pathology_rows t filename).map
          (fun r => r.sample_id)).filterMap
            (fun sid => find_sample_row t sid)).map
              (fun r => r.participant_id)).filter (fun p => p ≠ ""))
        = md.participant_id :: ps := by
    intro filename md h
    simp only [load_slide] at h
    by_cases hp : (find_pathology_rows t filename).isEmpty
    · simp [hp] at h
    · simp only [hp, Bool.false_eq_true, if_false] at h
      split at h
      · exact absurd h (by simp)
      · rename_i pid prest hpl
        split at h
        · exact absurd h (by simp)
        · rename_i prow hfp
          simp only [Except.ok.injEq] at h
          subst h
          exact ⟨prest, hpl⟩
  refine ⟨?_, hslide, ?_⟩
  · intro first rest res h
    simp only [get_patient_data, Except.ok.injEq] at h
    subst h
    refine ⟨rfl, ?_⟩
    intro hall s hs
    simp only at hs ⊢
    set diagnosis := (select_diagnosis_row t.diagnoses first.participant_id
      (some first.sample_id)).map row_to_diagnosis_dict with hdiag
    cases hd : diagnosis with
    | none =>
      rw [hd] at hs
      simp only at hs
      exact hall s hs
    | some d =>
      rw [hd] at hs
      simp only at hs
      unfold enrich_sample_sites at hs
      cases ht : truthyStr d.anatomic_site with
      | none =>
        rw [ht] at hs
        exact hall s hs
      | some da =>
        rw [ht] at hs
        obtain ⟨s0, hs0, rfl⟩ := List.mem_map.mp hs
        by_cases hm : site_missing s0.anatomic_site
        · simp only [hm, if_true]
          exact hall s0 hs0
        · simp only [hm, if_false]
          exact hall s0 hs0
  · intro filename md s1 srest h hs hne
    obtain ⟨ps, hp2⟩ := hslide filename md h
    rw [hs] at hp2
    simp only [List.map_cons, List.filter_cons] at hp2
    rw [if_pos (by simpa using hne)] at hp2
    injection hp2 with h1 h2
    exact h1.symm

/-- Witness for C3's amended theorem at a single-sample slide (pandas path)
and at `tablesC3` (loader path). -/
theorem c3_owner_first_amended_witness :
    (⟨some "P1", none, [⟨"S1", some "P1", none, none, none, none⟩]⟩ :
        ResolvedPatient).patient_id
      = (⟨"S1", some "P1", none, none, none, none⟩ : SampleData).participant_id
    ∧ (∀ s ∈ (⟨some "P1", none, [⟨"S1", some "P1", none, none, none, none⟩]⟩ :
        ResolvedPatient).samples,
        s.participant_id
          = (⟨some "P1", none, [⟨"S1", some "P1", none, none, none, none⟩]⟩ :
              ResolvedPatient).patient_id)
    ∧ (∃ ps, ["P1", "P2"]
        = (⟨"P1", [⟨"S1", none, "", "", ""⟩, ⟨"S2", none, "", "", ""⟩], none⟩ :
            DomainMetadata).participant_id :: ps)
    ∧ (⟨"P1", [⟨"S1", none, "", "", ""⟩, ⟨"S2", none, "", "", ""⟩], none⟩ :
        DomainMetadata).participant_id
      = (⟨"S1", "P1", "", ""⟩ : SampRow).participant_id :=
  have h1 := (c3_owner_first_amended ⟨[], [], [], []⟩).1
    ⟨"S1", some "P1", none, none, none, none⟩ []
    ⟨some "P1", none, [⟨"S1", some "P1", none, none, none, none⟩]⟩ rfl
  have h2 := (c3_owner_first_amended tablesC3).2.1 "F.svs"
    ⟨"P1", [⟨"S1", none, "", "", ""⟩, ⟨"S2", none, "", "", ""⟩], none⟩ rfl
  have h3 := (c3_owner_first_amended tablesC3).2.2 "F.svs"
    ⟨"P1", [⟨"S1", none, "", "", ""⟩, ⟨"S2", none, "", "", ""⟩], none⟩
    ⟨"S1", "P1", "", ""⟩ [⟨"S2", "P2", "", ""⟩] rfl rfl (by decide)
  ⟨h1.1, h1.2 (by decide), h2, h3⟩

/-! ### C7: anatomic-site back-fill -/

/-- Concrete tables refuting C7: the sample row already carries a
non-sentinel anatomic site, and the diagnosis row carries a different one. -/
def tablesC7 : Tables :=
  { pathology := [⟨"G.svs", "S1", "", ""⟩]
    samples := [⟨"S1", "P1", "C71.7 : Brain stem", ""⟩]
    participants := [⟨"P1", "", ""⟩]
    diagnoses := [⟨"D1", "P1", "", "9470/3 : Medulloblastoma, NOS",
      "C72.9 : Central nervous system", ""⟩] }

/-- C7 counterexample: in `ccdi_loader.py` the diagnosis's anatomic site
takes precedence over the specimen's own non-sentinel site — the resolved
specimen carries the diagnosis site, not the site of its sample row, so a
specimen that already holds a non-sentinel anatomic site is not left
unchanged. -/
theorem c7_backfill_counterexample :
    load_slide tablesC7 "G.svs" = Except.ok
      ⟨"P1", [⟨"S1", some "C72.9 : Central nervous system", "", "", ""⟩],
        some ⟨"D1", some "9470/3", "Medulloblastoma, NOS",
          "C72.9 : Central nervous system"⟩⟩
    ∧ tablesC7.samples.map (fun r => r.anatomic_site) = ["C71.7 : Brain stem"]
    ∧ site_missing (some "C71.7 : Brain stem") = false
    ∧ some "C72.9 : Central nervous system" ≠ some "C71.7 : Brain stem" := by
  refine ⟨rfl, rfl, rfl, by decide⟩

/-- C7 amended: in the pandas pipeline the back-fill behaves as claimed —
the diagnosis site is copied only into samples whose own site is absent or a
sentinel, a sample with a non-sentinel site is kept unchanged (it appears
unmodified in the result), an absent/falsy diagnosis site changes nothing,
and the resolved diagnosis never depends on any specimen's anatomic-site
data (diagnosis-to-specimen only); the `ccdi_loader.py` variant instead
gives the diagnosis site precedence over the specimen's own. -/
theorem c7_backfill_amended (da : Option String) (v : String)
    (samples : List SampleData) (hv : truthyStr da = some v) :
    (enrich_sample_sites da samples
      = samples.map (fun s =>
          if site_missing s.anatomic_site then { s with anatomic_site := some v }
          else s))
    ∧ (∀ s ∈ samples, site_missing s.anatomic_site = false →
        s ∈ enrich_sample_sites da samples)
    ∧ (∀ o : Option String, truthyStr o = none →
        enrich_sample_sites o samples = samples)
    ∧ (∀ (t : Tables) (first : SampleData) (rest rest2 : List SampleData)
        (site2 : Option String) (r1 r2 : ResolvedPatient),
        get_patient_data t (first :: rest) = Except.ok r1 →
        get_patient_data t ({first with anatomic_site := site2} :: rest2)
          = Except.ok r2 →
        r1.diagnosis = r2.diagnosis) := by
  refine ⟨?_, ?_, ?_, ?_⟩
  · unfold enrich_sample_sites
    rw [hv]
  · intro s hs hmiss
    unfold enrich_sample_sites
    rw [hv]
    refine List.mem_map.mpr ⟨s, hs, ?_⟩
    rw [hmiss]
    simp
  · intro o ho
    unfold enrich_sample_sites
    rw [ho]
  · intro t first rest rest2 site2 r1 r2 h1 h2
    simp only [get_patient_data, Except.ok.injEq] at h1 h2
    subst h1
    subst h2
    rfl

/-- Witness for C7's amended theorem: a sample with a non-sentinel site of
its own survives the back-fill unchanged. -/
theorem c7_backfill_amended_witness :
    (⟨"S1", some "P1", some "C72.0 : Spinal cord", none, none, none⟩ :
        SampleData)
      ∈ enrich_sample_sites (some "C71.7 : Brain stem")
        [⟨"S1", some "P1", some "C72.0 : Spinal cord", none, none, none⟩] :=
  (c7_backfill_amended (some "C71.7 : Brain stem") "C71.7 : Brain stem"
      [⟨"S1", some "P1", some "C72.0 : Spinal cord", none, none, none⟩]
      (by decide)).2.1
    ⟨"S1", some "P1", some "C72.0 : Spinal cord", none, none, none⟩
    (by decide) (by decide)

end WsiConv
